import Mathlib

/-!
Verification of the Conversation Orchestration & Tracing Pipeline of the
Azure_OpenAI_Agent repository, as a shallow embedding of the Python source.

The embedding covers:
 - the per-turn orchestration functions `process_message` (src/AzureApp.py
   lines 81-110, src/CLIApp.py lines 84-115) and `process_query` together
   with the synchronous bridge `run_query_sync` (src/App.py lines 54-72);
 - the chat-turn history updates of the Streamlit mains
   (src/App.py lines 111-124, src/AzureApp.py lines 163-199);
 - the offline analytics `analyze_performance` and `export_data`
   (src/OpikAnalytics.py lines 36-79 and 159-165).

Fallible Python calls are modelled with `Except String`: a value `.error m`
stands for an exception carrying message `m` propagating out of the call, and
`.ok v` for a normal return.  The single external model call made inside each
orchestration function (`Runner.run`) is abstracted as an input of type
`Except String String`: the completion text on success, the exception message
on failure.
-/

namespace AOAgent

/-- Speaker role of one chat message, as stored in the Streamlit
`st.session_state.messages` dictionaries under the key "role". -/
inductive Role : Type where
  | system
  | user
  | assistant
  deriving DecidableEq, BEq, Repr

/-- One conversation message: a `{"role": ..., "content": ...}` entry of the
`st.session_state.messages` history list. -/
structure Turn : Type where
  role : Role
  content : String
  deriving DecidableEq, BEq, Repr

/-- Outcome of the single model-gateway invocation (`Runner.run`): the
completion text, or the message of the exception the call raised. -/
abbrev GatewayResult := Except String String

/-- External calls observable inside one orchestration function body:
the model-gateway call (`Runner.run`) and the trace emission
(`opik.log_traces`). -/
inductive CallEvent : Type where
  | gatewayCall
  | logTrace
  deriving DecidableEq, BEq, Repr

/-- The fixed text that AzureApp.py line 108 and CLIApp.py line 113 put in
front of the exception message of a failed turn. -/
def degradedMark : String := "Error processing message: "

/-- The fixed text that App.py line 61 puts in front of the exception message
of a failed `Runner.run` call inside `process_query`. -/
def queryDegradedMark : String := "Error processing query: "

/-- Shallow embedding of `AIAgentApp.process_message` (src/AzureApp.py lines
81-110) and of the identical `SimpleAIAgent.process_message` (src/CLIApp.py
lines 84-115).  The try block runs `Runner.run` on the user input and, on
success, calls `opik.log_traces` and returns `result.final_output`; the
except clause catches every exception `e` and returns the degraded string
`"Error processing message: " ++ str(e)`.  The first component is the
function result (always a normal return, `.ok`), the second the list of
external calls made, in order. -/
def process_message_run (g : GatewayResult) :
    Except String String × List CallEvent :=
  match g with
  | .ok finalOutput => (.ok finalOutput, [.gatewayCall, .logTrace])
  | .error e => (.ok (degradedMark ++ e), [.gatewayCall])

/-- Result of `process_message` as seen by its caller. -/
def process_message (g : GatewayResult) : Except String String :=
  (process_message_run g).1

/-- External calls performed by one `process_message` invocation. -/
def process_message_events (g : GatewayResult) : List CallEvent :=
  (process_message_run g).2

/-- Shallow embedding of `OpenAIAgentApp.process_query` (src/App.py lines
54-61): `Runner.run` once inside a try block; the except clause catches every
exception `e` and returns `"Error processing query: " ++ str(e)`. -/
def process_query_run (g : GatewayResult) :
    Except String String × List CallEvent :=
  match g with
  | .ok finalOutput => (.ok finalOutput, [.gatewayCall])
  | .error e => (.ok (queryDegradedMark ++ e), [.gatewayCall])

/-- Result of `process_query` as seen by its caller. -/
def process_query (g : GatewayResult) : Except String String :=
  (process_query_run g).1

/-- External calls performed by one `process_query` invocation. -/
def process_query_events (g : GatewayResult) : List CallEvent :=
  (process_query_run g).2

/-- ASCII lowercase of one character. -/
def lowerChar (c : Char) : Char :=
  if 65 ≤ c.toNat ∧ c.toNat ≤ 90 then Char.ofNat (c.toNat + 32) else c

/-- ASCII lowercase of a string, used to compare user-facing message text up
to letter case. -/
def lowerStr (s : String) : String := String.mk (s.data.map lowerChar)

/-- Whether a modelled Python call lets an exception propagate to its
caller. -/
def propagates {α : Type} : Except String α → Bool
  | .ok _ => false
  | .error _ => true

/-- The message of the RuntimeError that CPython `asyncio.run` raises when it
is invoked while an event loop is already running in the calling thread. -/
def nestedLoopMsg : String :=
  "asyncio.run() cannot be called from a running event loop"

/-- Model of `asyncio.run(coro)`: from inside an already-running event loop
it raises RuntimeError without driving the coroutine; otherwise it drives the
coroutine to completion and forwards its outcome. -/
def asyncio_run (inRunningLoop : Bool) (coro : Except String String) :
    Except String String :=
  if inRunningLoop then .error nestedLoopMsg else coro

/-- Shallow embedding of `OpenAIAgentApp.run_query_sync` (src/App.py lines
63-72): the try block builds the client and agent and calls
`asyncio.run(self.process_query(query, agent))`; the except clause catches
every exception `e` and returns `"Error: " ++ str(e)`. -/
def run_query_sync (inRunningLoop : Bool) (g : GatewayResult) :
    Except String String :=
  match asyncio_run inRunningLoop (process_query g) with
  | .ok s => .ok s
  | .error e => .ok ("Error: " ++ e)

/-- The response string one App.py chat turn displays and stores, as a
function of the gateway outcome (main is synchronous, so `asyncio.run` is
not nested). -/
def appResponseOf : GatewayResult → String
  | .ok out => out
  | .error e => queryDegradedMark ++ e

/-- Shallow embedding of the chat-input block of `main` in src/App.py lines
111-124: append the user turn to `st.session_state.messages`, obtain
`response = run_query_sync(prompt)`, append the assistant turn carrying the
response.  Were `run_query_sync` to raise, the script would abort before the
assistant append (it provably never does, see `run_query_sync_never_raises`). -/
def app_chat_turn (history : List Turn) (prompt : String) (g : GatewayResult) :
    List Turn :=
  match run_query_sync false g with
  | .ok response => (history ++ [⟨.user, prompt⟩]) ++ [⟨.assistant, response⟩]
  | .error _ => history ++ [⟨.user, prompt⟩]

/-- The response string one AzureApp.py chat turn stores, as a function of
the gateway outcome. -/
def azureResponseOf : GatewayResult → String
  | .ok out => out
  | .error e => degradedMark ++ e

/-- Shallow embedding of the chat-input block of `main` in src/AzureApp.py
lines 177-199: append the user turn (line 179, outside the try), then inside
the try obtain `response = asyncio.run(process_message(prompt))` and append
the assistant turn with it (line 194); the except clause appends an assistant
turn with "Sorry, I encountered an error: " ++ str(e) instead (line 199).
Either way exactly one assistant turn is appended. -/
def azure_chat_turn (history : List Turn) (prompt : String)
    (g : GatewayResult) : List Turn :=
  let withUser := history ++ [⟨.user, prompt⟩]
  match asyncio_run false (process_message g) with
  | .ok response => withUser ++ [⟨.assistant, response⟩]
  | .error e => withUser ++ [⟨.assistant, "Sorry, I encountered an error: " ++ e⟩]

/-- The greeting turn AzureApp.py lines 166-169 seed the history with (also
restored by the Clear Chat button, lines 202-207). -/
def azureGreeting : Turn :=
  ⟨Role.assistant,
   "Hello! I\x27m your Azure AI Assistant with Opik tracing. How can I help you today?"⟩

/-- Number of user turns in a history. -/
def userCount (h : List Turn) : Nat :=
  h.countP fun t => t.role == Role.user

/-- Number of assistant turns in a history. -/
def assistantCount (h : List Turn) : Nat :=
  h.countP fun t => t.role == Role.assistant

/-- True when no turn of the history has the system role. -/
def noSystem (h : List Turn) : Bool :=
  h.all fun t => !(t.role == Role.system)

/-- Role expected after a turn of role `r` in a strictly alternating
user-assistant dialogue. -/
def nextRole : Role → Role
  | .user => .assistant
  | _ => .user

/-- True when the history strictly alternates roles starting from `r`. -/
def alternatesFrom : Role → List Turn → Bool
  | _, [] => true
  | r, t :: ts => (t.role == r) && alternatesFrom (nextRole r) ts

/-- A dialogue of user-assistant pairs, in arrival order. -/
def turnPairs : List (String × String) → List Turn
  | [] => []
  | (p, s) :: rest => ⟨Role.user, p⟩ :: ⟨Role.assistant, s⟩ :: turnPairs rest

/-- Histories reachable in src/App.py: the history starts empty (line 103),
the Reset Conversation button empties it (line 98), and each chat turn runs
the lines 111-124 block. -/
inductive AppReachable : List Turn → Prop where
  | init : AppReachable []
  | reset (h : List Turn) : AppReachable h → AppReachable []
  | turn (h : List Turn) (p : String) (g : GatewayResult) :
      AppReachable h → AppReachable (app_chat_turn h p g)

/-- Histories reachable in src/AzureApp.py: the history starts as the
greeting turn (lines 164-169), the Clear Chat button restores exactly that
(lines 202-207), and each chat turn runs the lines 177-199 block. -/
inductive AzureReachable : List Turn → Prop where
  | init : AzureReachable [azureGreeting]
  | clear (h : List Turn) : AzureReachable h → AzureReachable [azureGreeting]
  | turn (h : List Turn) (p : String) (g : GatewayResult) :
      AzureReachable h → AzureReachable (azure_chat_turn h p g)

theorem run_query_sync_never_raises (b : Bool) (g : GatewayResult) :
    propagates (run_query_sync b g) = false := by
  cases b <;> cases g <;> rfl

theorem app_chat_turn_eq (h : List Turn) (p : String) (g : GatewayResult) :
    app_chat_turn h p g = h ++ [⟨.user, p⟩, ⟨.assistant, appResponseOf g⟩] := by
  cases g <;>
    simp [app_chat_turn, run_query_sync, asyncio_run, process_query,
      process_query_run, appResponseOf]

theorem azure_chat_turn_eq (h : List Turn) (p : String) (g : GatewayResult) :
    azure_chat_turn h p g = h ++ [⟨.user, p⟩, ⟨.assistant, azureResponseOf g⟩] := by
  cases g <;>
    simp [azure_chat_turn, asyncio_run, process_message, process_message_run,
      azureResponseOf]

/-- C1 counterexample: on a concrete gateway fault, process_query returns
the degraded string "Error processing query: boom", which is not of the form
"error processing message: <message>": its first 26 characters differ from
that fixed front part, both literally and after ASCII lowercasing. -/
theorem process_query_not_message_form :
    process_query (.error "boom") = .ok ("Error processing query: boom") ∧
    ("Error processing query: boom").data.take 26 ≠
      ("error processing message: ").data ∧
    (lowerStr "Error processing query: boom").data.take 26 ≠
      ("error processing message: ").data :=
  ⟨rfl, by decide, by decide⟩

/-- C1 amended: for every user input and every fault raised by the model
gateway call, process_message returns the degraded string
"Error processing message: " ++ message, while process_query returns
"Error processing query: " ++ message (the two fixed front parts
ASCII-lowercase to "error processing message: " and
"error processing query: " respectively), and neither operation lets the
exception propagate past the process boundary: both always return
normally, for every gateway outcome. -/
theorem process_degrades :
    (∀ m : String, process_message (.error m) = .ok (degradedMark ++ m)) ∧
    (∀ m : String, process_query (.error m) = .ok (queryDegradedMark ++ m)) ∧
    lowerStr degradedMark = "error processing message: " ∧
    lowerStr queryDegradedMark = "error processing query: " ∧
    (∀ g : GatewayResult, propagates (process_message g) = false) ∧
    (∀ g : GatewayResult, propagates (process_query g) = false) := by
  refine ⟨fun m => rfl, fun m => rfl, by decide, by decide,
    fun g => ?_, fun g => ?_⟩ <;> cases g <;> rfl

/-- C2 counterexample: from the empty history, a turn on which the gateway
fails leaves the history with one new assistant Turn carrying the degraded
error string, so the assistant side of the history does not stay unchanged
(the claim asserts zero new assistant Turns are appended). -/
theorem azure_failure_appends_assistant :
    azure_chat_turn [] "hi" (.error "boom") =
      [⟨Role.user, "hi"⟩, ⟨Role.assistant, "Error processing message: boom"⟩] ∧
    assistantCount (azure_chat_turn [] "hi" (.error "boom")) = 1 ∧
    assistantCount [] = 0 := by
  refine ⟨rfl, ?_, rfl⟩
  rfl

/-- C2 amended: when the model gateway fails, the AzureApp chat turn returns
the degraded string "Error processing message: " ++ message (whose fixed part
lowercases to "error processing message: "), keeps the user Turn it appended
before the call, and appends exactly one new assistant Turn whose content is
that degraded string; the user side grows by one and the assistant side grows
by one, not by zero. -/
theorem azure_failure_history (h : List Turn) (p m : String) :
    azure_chat_turn h p (.error m) =
      h ++ [⟨Role.user, p⟩, ⟨Role.assistant, degradedMark ++ m⟩] ∧
    userCount (azure_chat_turn h p (.error m)) = userCount h + 1 ∧
    assistantCount (azure_chat_turn h p (.error m)) = assistantCount h + 1 ∧
    lowerStr degradedMark = "error processing message: " := by
  have he := azure_chat_turn_eq h p (.error m)
  refine ⟨he, ?_, ?_, by decide⟩ <;>
    simp [he, userCount, assistantCount, azureResponseOf, List.countP_append,
      List.countP_cons] <;> rfl

/-- C3: for every history and every user text on which the App.py turn
succeeds (the gateway returns a completion), the history afterwards is the
old history with exactly one more user Turn and one more assistant Turn
appended, in that order. -/
theorem app_chat_turn_success (h : List Turn) (p resp : String) :
    app_chat_turn h p (.ok resp) =
      h ++ [⟨Role.user, p⟩, ⟨Role.assistant, resp⟩] ∧
    userCount (app_chat_turn h p (.ok resp)) = userCount h + 1 ∧
    assistantCount (app_chat_turn h p (.ok resp)) = assistantCount h + 1 := by
  have he := app_chat_turn_eq h p (.ok resp)
  refine ⟨he, ?_, ?_⟩ <;>
    simp [he, userCount, assistantCount, appResponseOf, List.countP_append,
      List.countP_cons] <;> rfl

theorem turnPairs_append (a b : List (String × String)) :
    turnPairs (a ++ b) = turnPairs a ++ turnPairs b := by
  induction a with
  | nil => rfl
  | cons x xs ih => cases x; simp [turnPairs, ih]

theorem noSystem_turnPairs (l : List (String × String)) :
    noSystem (turnPairs l) = true := by
  induction l with
  | nil => rfl
  | cons x xs ih =>
    cases x
    simp [turnPairs, noSystem, List.all_cons] at ih ⊢
    exact ⟨by decide, by decide, ih⟩

theorem alternates_turnPairs (l : List (String × String)) :
    alternatesFrom Role.user (turnPairs l) = true := by
  induction l with
  | nil => rfl
  | cons x xs ih =>
    cases x
    simp [turnPairs, alternatesFrom, nextRole] at ih ⊢
    exact ⟨by decide, by decide, ih⟩

theorem appReachable_pairs (h : List Turn) (hr : AppReachable h) :
    ∃ l, h = turnPairs l := by
  induction hr with
  | init => exact ⟨[], rfl⟩
  | reset _ _ _ => exact ⟨[], rfl⟩
  | turn h p g _ ih =>
    obtain ⟨l, rfl⟩ := ih
    refine ⟨l ++ [(p, appResponseOf g)], ?_⟩
    rw [app_chat_turn_eq, turnPairs_append]
    rfl

theorem azureReachable_pairs (h : List Turn) (hr : AzureReachable h) :
    ∃ l, h = azureGreeting :: turnPairs l := by
  induction hr with
  | init => exact ⟨[], rfl⟩
  | clear _ _ _ => exact ⟨[], rfl⟩
  | turn h p g _ ih =>
    obtain ⟨l, rfl⟩ := ih
    refine ⟨l ++ [(p, azureResponseOf g)], ?_⟩
    rw [azure_chat_turn_eq, turnPairs_append, List.cons_append]
    rfl

/-- C4 counterexample: the initial AzureApp history is reachable, is
non-empty, and its first (and only) Turn has role assistant, not system: the
greeting seeded at AzureApp.py lines 166-169 refutes the claim that the first
Turn of every reachable non-empty history has role system. -/
theorem azure_first_turn_not_system :
    AzureReachable [azureGreeting] ∧
    azureGreeting.role = Role.assistant ∧
    Role.assistant ≠ Role.system :=
  ⟨AzureReachable.init, rfl, by decide⟩

/-- C4 amended: no reachable history of either chat app ever contains a
system Turn; in App.py the whole history strictly alternates user then
assistant from its start, and in AzureApp.py the history starts with the
fixed assistant greeting Turn and strictly alternates user then assistant
after it. -/
theorem chat_history_invariant :
    (∀ h : List Turn, AppReachable h →
      noSystem h = true ∧ alternatesFrom Role.user h = true) ∧
    (∀ h : List Turn, AzureReachable h →
      noSystem h = true ∧ h.head? = some azureGreeting ∧
      alternatesFrom Role.user h.tail = true) := by
  constructor
  · intro h hr
    obtain ⟨l, rfl⟩ := appReachable_pairs h hr
    exact ⟨noSystem_turnPairs l, alternates_turnPairs l⟩
  · intro h hr
    obtain ⟨l, rfl⟩ := azureReachable_pairs h hr
    refine ⟨?_, rfl, alternates_turnPairs l⟩
    have := noSystem_turnPairs l
    simp [noSystem, azureGreeting, List.all_cons] at this ⊢
    exact ⟨by decide, this⟩

/-- C4 amended, witness: the invariant evaluated on the one-turn App.py
history and on the initial AzureApp history. -/
theorem chat_history_invariant_witness :
    (noSystem (app_chat_turn [] "hi" (.ok "hello")) = true ∧
     alternatesFrom Role.user (app_chat_turn [] "hi" (.ok "hello")) = true) ∧
    (noSystem [azureGreeting] = true ∧
     ([azureGreeting] : List Turn).head? = some azureGreeting ∧
     alternatesFrom Role.user ([azureGreeting] : List Turn).tail = true) :=
  ⟨chat_history_invariant.1 _
      (AppReachable.turn [] "hi" (.ok "hello") AppReachable.init),
   chat_history_invariant.2 _ AzureReachable.init⟩

/-- Status of one persisted trace record, as the spec taxonomy names it. -/
inductive Status : Type where
  | ok
  | error
  deriving DecidableEq, BEq, Repr

/-- One already-fetched trace record handed to `analyze_performance`
(src/OpikAnalytics.py line 36).  The source body never reads any field of a
trace: it only tests the batch for emptiness, so the carried fields are the
ones the spec scenario speaks about. -/
structure TraceRecord : Type where
  status : Status
  elapsedTenths : Nat
  deriving DecidableEq, BEq, Repr

/-- Zero-padded three-digit rendering of a number, as the Python format
specifier `:03d` produces for the sample conversation ids. -/
def pad3 (n : Nat) : String :=
  if n < 10 then "00" ++ toString n
  else if n < 100 then "0" ++ toString n
  else toString n

/-- The sample conversation id `f"conv_{i//3:03d}"` of
src/OpikAnalytics.py line 49. -/
def convId (n : Nat) : String := "conv_" ++ pad3 n

/-- One row of the synthetic sample DataFrame built inside
`analyze_performance` (src/OpikAnalytics.py lines 43-53).  Response times are
held in tenths of a second so that `2.5 + (i % 5) * 0.3` is the exact natural
number `25 + (i % 5) * 3`. -/
structure SampleRecord : Type where
  timestampMin : Int
  responseTimeTenths : Nat
  success : Bool
  tokenCount : Nat
  conversationId : String
  model : String
  deriving DecidableEq, BEq, Repr

/-- The synthetic 20-row sample built by src/OpikAnalytics.py lines 43-53:
for i in range(20), timestamp `datetime.now() - timedelta(minutes=i*10)`
(the wall-clock read is the explicit `now` argument, in minutes),
response_time `2.5 + (i % 5) * 0.3`, success `i % 10 != 0`, token_count
`150 + (i % 3) * 50`, conversation_id `f"conv_{i//3:03d}"`, model
"gpt-4o-mini". -/
def sampleData (now : Int) : List SampleRecord :=
  (List.range 20).map fun (i : Nat) =>
    { timestampMin := now - 10 * (i : Int)
      responseTimeTenths := 25 + (i % 5) * 3
      success := i % 10 != 0
      tokenCount := 150 + (i % 3) * 50
      conversationId := convId (i / 3)
      model := "gpt-4o-mini" }

/-- Minimum of a list of naturals (0 on the empty list; the source only takes
it on the 20-row sample). -/
def minOf : List Nat → Nat
  | [] => 0
  | x :: xs => xs.foldl Nat.min x

/-- Maximum of a list of naturals (0 on the empty list). -/
def maxOf : List Nat → Nat
  | [] => 0
  | x :: xs => xs.foldl Nat.max x

/-- Sample variance with one delta degree of freedom, exactly as pandas
`Series.std` squares to: sum of squared deviations from the mean divided by
n - 1.  The standard deviation the source prints is the square root of this
value, so equality of variances gives equality of printed deviations. -/
def sampleVariance (l : List ℚ) : ℚ :=
  let n : ℚ := l.length
  let m : ℚ := l.sum / n
  (l.map fun x => (x - m) * (x - m)).sum / (n - 1)

/-- The statistics block printed by `analyze_performance`
(src/OpikAnalytics.py lines 57-77): total interactions, success rate,
average/min/max response time and its variance (the source prints the
standard deviation, the square root of the variance field kept here),
average/total/min/max token counts, and the number of unique conversation
ids. -/
structure AnalyticsReport : Type where
  count : Nat
  successRate : ℚ
  meanResponseTenths : ℚ
  meanTokens : ℚ
  uniqueConversations : Nat
  minResponseTenths : Nat
  maxResponseTenths : Nat
  varResponseTenths : ℚ
  totalTokens : Nat
  minTokens : Nat
  maxTokens : Nat
  deriving DecidableEq, Repr

/-- The statistics `analyze_performance` computes from a DataFrame of sample
rows (src/OpikAnalytics.py lines 60-77): every figure reads the
response_time, success, token_count and conversation_id columns only; no
statistic reads the timestamp column. -/
def computeReport (l : List SampleRecord) : AnalyticsReport :=
  let rts : List Nat := l.map fun r => r.responseTimeTenths
  let sucs : List Bool := l.map fun r => r.success
  let toks : List Nat := l.map fun r => r.tokenCount
  let convs : List String := l.map fun r => r.conversationId
  { count := l.length
    successRate := (sucs.count true : ℚ) / (l.length : ℚ)
    meanResponseTenths := (rts.sum : ℚ) / (l.length : ℚ)
    meanTokens := (toks.sum : ℚ) / (l.length : ℚ)
    uniqueConversations := convs.dedup.length
    minResponseTenths := minOf rts
    maxResponseTenths := maxOf rts
    varResponseTenths := sampleVariance (rts.map fun x => (x : ℚ))
    totalTokens := toks.sum
    minTokens := minOf toks
    maxTokens := maxOf toks }

/-- Shallow embedding of `OpikAnalytics.analyze_performance`
(src/OpikAnalytics.py lines 36-79): on an empty batch it prints a notice and
returns None; otherwise it synthesizes the 20-row sample DataFrame from the
current wall-clock time `now` and returns it.  The input trace records are
never read beyond the emptiness test. -/
def analyze_performance (now : Int) (traces : List TraceRecord) :
    Option (List SampleRecord) :=
  if traces.isEmpty then none else some (sampleData now)

/-- The statistics block one `analyze_performance` run prints, namely
`computeReport` applied to the DataFrame it builds. -/
def performance_report (now : Int) (traces : List TraceRecord) :
    Option AnalyticsReport :=
  (analyze_performance now traces).map computeReport

/-- The batch of the spec scenario: 10 records, 9 with status ok and elapsed
times inside [2.5 s, 4.0 s], 1 with status error. -/
def batch10 : List TraceRecord :=
  List.replicate 9 ⟨Status.ok, 30⟩ ++ [⟨Status.error, 30⟩]

/-- The message of the exception `DataFrame.to_csv` raises on an unwritable
destination, named after the spec error taxonomy. -/
def exportIOErrorMsg : String := "ExportIOError"

/-- The destination file of an export: whether the path is writable, and how
many data rows the destination holds. -/
structure FileState : Type where
  writable : Bool
  rowsWritten : Nat
  deriving DecidableEq, Repr

/-- Model of `df.to_csv(filename)`: on a writable destination it writes one
data row per record; on an unwritable destination it raises before writing
anything. -/
def to_csv (rows : List SampleRecord) (fs : FileState) :
    Except String FileState :=
  if fs.writable then .ok { fs with rowsWritten := rows.length }
  else .error exportIOErrorMsg

/-- Shallow embedding of `OpikAnalytics.export_data`
(src/OpikAnalytics.py lines 159-165): when the DataFrame is present and
non-empty it calls `df.to_csv(filename)` with no exception handling, so an
unwritable destination raises past export_data and leaves the destination
untouched; otherwise it prints "No data to export" and performs no write at
all.  The pair holds the call outcome and the resulting destination state. -/
def export_data (df : Option (List SampleRecord)) (fs : FileState) :
    Except String Unit × FileState :=
  match df with
  | none => (.ok (), fs)
  | some rows =>
    if rows.isEmpty then (.ok (), fs)
    else
      match to_csv rows fs with
      | .ok fs2 => (.ok (), fs2)
      | .error e => (.error e, fs)

theorem computeReport_sampleData (n : Int) :
    computeReport (sampleData n) = computeReport (sampleData 0) := rfl

/-- C5: for every fixed input batch, two runs of the analytics computation at
two different wall-clock instants report identical statistics: th e wall-clock
read feeding the synthesized timestamp column influences no report field, and
the computation holds no other run-dependent input. -/
theorem analytics_deterministic (n1 n2 : Int) (traces : List TraceRecord) :
    performance_report n1 traces = performance_report n2 traces := by
  cases traces with
  | nil => rfl
  | cons t ts =>
    show some (computeReport (sampleData n1)) = some (computeReport (sampleData n2))
    rw [computeReport_sampleData n1, computeReport_sampleData n2]

/-- C6 counterexample: on the spec scenario batch of 10 records (9 ok, 1
error) the analytics computation reports count = 20, the size of its fixed
synthetic sample, not 10, the number of input records. -/
theorem analytics_count_mismatch :
    batch10.length = 10 ∧
    (performance_report 0 batch10).map AnalyticsReport.count = some 20 ∧
    (10 : Nat) ≠ 20 :=
  ⟨rfl, rfl, by decide⟩

/-- C6 amended: for every non-empty record batch the analytics computation
reports figures drawn from its fixed 20-row synthetic sample, regardless of
the batch contents: count = 20 and success_rate = 9/10 always; on the spec
scenario batch of 10 records with 9 ok the reported success_rate is indeed
0.9, but count is 20, not the number of records. -/
theorem analytics_fixed_sample (now : Int) (traces : List TraceRecord)
    (h : traces ≠ []) :
    (performance_report now traces).map AnalyticsReport.count = some 20 ∧
    (performance_report now traces).map AnalyticsReport.successRate =
      some (9 / 10 : ℚ) := by
  cases traces with
  | nil => exact absurd rfl h
  | cons t ts =>
    rw [show performance_report now (t :: ts) =
          some (computeReport (sampleData now)) from rfl,
        computeReport_sampleData now]
    refine ⟨rfl, ?_⟩
    rw [show Option.map AnalyticsReport.successRate
          (some (computeReport (sampleData 0))) =
        some ((computeReport (sampleData 0)).successRate) from rfl]
    congr 1
    show ((((sampleData 0).map fun r => r.success).count true : ℚ))
        / (((sampleData 0).length : Nat) : ℚ) = 9 / 10
    have h18 : ((sampleData 0).map fun r => r.success).count true = 18 := rfl
    have h20 : (sampleData 0).length = 20 := rfl
    rw [h18, h20]
    norm_num

/-- C6 amended, witness: the amended statement evaluated on the spec scenario
batch. -/
theorem analytics_fixed_sample_witness :
    batch10 ≠ [] ∧
    ((performance_report 0 batch10).map AnalyticsReport.count = some 20 ∧
     (performance_report 0 batch10).map AnalyticsReport.successRate =
       some (9 / 10 : ℚ)) :=
  ⟨by decide, analytics_fixed_sample 0 batch10 (by decide)⟩

/-- C9 counterexample: exporting an empty DataFrame to an unwritable
destination does not fail with the export error: export_data takes its
no-data branch, returns normally and writes nothing, so the failure promised
for every dataset on an unwritable destination does not occur. -/
theorem export_empty_unwritable :
    export_data (some []) ⟨false, 0⟩ = (Except.ok (), FileState.mk false 0) ∧
    propagates (export_data (some []) ⟨false, 0⟩).1 = false :=
  ⟨rfl, rfl⟩

/-- C9 amended: for every non-empty DataFrame, export to an unwritable
destination raises the export error past export_data and leaves the
destination with zero rows written, and export to a writable destination
returns normally having written one row per record; an empty or absent
DataFrame is never written and never fails. -/
theorem export_behavior (rows : List SampleRecord) (fs : FileState)
    (hne : rows ≠ []) :
    (fs.writable = false →
      export_data (some rows) fs = (Except.error exportIOErrorMsg, fs)) ∧
    (fs.writable = true →
      export_data (some rows) fs =
        (Except.ok (), FileState.mk true rows.length)) := by
  obtain ⟨w, r⟩ := fs
  cases rows with
  | nil => exact absurd rfl hne
  | cons x xs =>
    cases w
    · exact ⟨fun _ => rfl, fun hcontra => Bool.noConfusion hcontra⟩
    · exact ⟨fun hcontra => Bool.noConfusion hcontra, fun _ => rfl⟩

/-- C9 amended, witness: the amended statement evaluated on the 20-row sample
DataFrame against an unwritable and against a writable destination. -/
theorem export_behavior_witness :
    export_data (some (sampleData 0)) ⟨false, 0⟩ =
      (Except.error exportIOErrorMsg, FileState.mk false 0) ∧
    export_data (some (sampleData 0)) ⟨true, 0⟩ =
      (Except.ok (), FileState.mk true (sampleData 0).length) :=
  ⟨(export_behavior (sampleData 0) ⟨false, 0⟩ (by decide)).1 rfl,
   (export_behavior (sampleData 0) ⟨true, 0⟩ (by decide)).2 rfl⟩

/-- C10: the statistics reported by the analytics computation do not depend
on the contents of the input trace batch, only on whether it is empty: any
two non-empty batches, analyzed at any two instants, yield identical reports,
and an empty batch yields no report. -/
theorem analytics_content_blind (n1 n2 : Int) (t1 t2 : List TraceRecord)
    (h1 : t1 ≠ []) (h2 : t2 ≠ []) :
    performance_report n1 t1 = performance_report n2 t2 ∧
    performance_report n1 ([] : List TraceRecord) = none := by
  refine ⟨?_, rfl⟩
  cases t1 with
  | nil => exact absurd rfl h1
  | cons a as =>
    cases t2 with
    | nil => exact absurd rfl h2
    | cons b bs =>
      show some (computeReport (sampleData n1)) = some (computeReport (sampleData n2))
      rw [computeReport_sampleData n1, computeReport_sampleData n2]

/-- C10 witness: a one-record batch and the ten-record scenario batch,
analyzed five minutes apart, yield the same report. -/
theorem analytics_content_blind_witness :
    performance_report 0 [⟨Status.ok, 30⟩] = performance_report 5 batch10 ∧
    performance_report 0 ([] : List TraceRecord) = none :=
  analytics_content_blind 0 5 [⟨Status.ok, 30⟩] batch10 (by decide) (by decide)

/-- C7 counterexample: invoking run_query_sync from inside a running
cooperative context does not fail with a raised nested-bridge error; the
inner asyncio.run raises, but the except clause of run_query_sync recovers
the fault into the normally returned string "Error: asyncio.run() cannot be
called from a running event loop". -/
theorem nested_bridge_not_raised :
    run_query_sync true (.ok "hi") = .ok ("Error: " ++ nestedLoopMsg) ∧
    propagates (run_query_sync true (.ok "hi")) = false :=
  ⟨rfl, rfl⟩

/-- C7 amended: for every gateway outcome, invoking the synchronous bridge
from within an already-running cooperative context makes the inner
asyncio.run raise the nested-loop RuntimeError, which run_query_sync catches
and converts into the degraded string "Error: " ++ message returned normally
to the caller; the fault never surfaces as an exception. -/
theorem nested_bridge_degraded (g : GatewayResult) :
    run_query_sync true g = .ok ("Error: " ++ nestedLoopMsg) ∧
    propagates (run_query_sync true g) = false := by
  cases g <;> exact ⟨rfl, rfl⟩

/-- C8: for every gateway outcome, one invocation of process_message and one
invocation of process_query each perform exactly one model-gateway call: no
code path re-invokes the gateway after a failure, so every gateway failure is
terminal for that turn. -/
theorem gateway_called_once (g : GatewayResult) :
    (process_message_events g).count CallEvent.gatewayCall = 1 ∧
    (process_query_events g).count CallEvent.gatewayCall = 1 := by
  cases g <;> exact ⟨rfl, rfl⟩

end AOAgent
